import Mathlib

/-!
# antraTodo: a shallow embedding of `index.js`

The file has three layers.

* The JavaScript primitives that `index.js` applies to its data: `String.prototype.trim`,
  the unary plus (`ToNumber`), the strict comparison `!==` on numbers and the string
  conversion performed by a template literal (`ToString`).
* The components of `index.js`: `Model.State`, `View.updateTodoList` and the `ViewModel`
  functions `getTodos`, `addTodo`, `removeTodo` and `bootstrap`, together with the listeners
  and promise continuations they install.
* The event loop: one event (a user action or the completion of a request) is handled to
  completion before the next one starts.
-/

namespace AntraTodo

/-! ## JavaScript primitives -/

/-- The code points of the ECMAScript productions `WhiteSpace` and `LineTerminator`: the
characters removed by `String.prototype.trim` and skipped around a numeric string. -/
def isJsWhiteSpace (c : Char) : Bool :=
  let n := c.toNat
  n = 0x09 || n = 0x0A || n = 0x0B || n = 0x0C || n = 0x0D || n = 0x20 || n = 0xA0 ||
  n = 0x1680 || (0x2000 ≤ n && n ≤ 0x200A) || n = 0x2028 || n = 0x2029 || n = 0x202F ||
  n = 0x205F || n = 0x3000 || n = 0xFEFF

/-- Removal of leading and trailing white space from a list of characters. -/
def trimChars (cs : List Char) : List Char :=
  ((cs.dropWhile isJsWhiteSpace).reverse.dropWhile isJsWhiteSpace).reverse

/-- The method `String.prototype.trim`, as in `title.trim()`. -/
def trim (s : String) : String :=
  String.mk (trimChars s.data)

/-- A JavaScript Number. `fin neg m e` denotes the binary64 value nearest to `± m · 2 ^ e`
(so every double has a representation, and `JsNumber.canon` computes the canonical one).
The two zeros are not distinguished: `index.js` observes numbers only through `!==` and
through template literals, and neither separates `+0` from `-0`. -/
inductive JsNumber where
  | nan
  | inf (neg : Bool)
  | fin (neg : Bool) (m : Nat) (e : Int)
  deriving DecidableEq, Repr

/-- Number of binary digits of `n`, computed with fuel. -/
def bitLengthAux : Nat → Nat → Nat
  | 0, _ => 0
  | fuel + 1, n => if n = 0 then 0 else bitLengthAux fuel (n / 2) + 1

/-- Number of binary digits of `n` (`0` for `0`). -/
def bitLength (n : Nat) : Nat :=
  bitLengthAux n n

/-- The fraction `num / den` divided by `2 ^ k`. -/
def scale2 (num den : Nat) (k : Int) : Nat × Nat :=
  if 0 ≤ k then (num, den * 2 ^ k.toNat) else (num * 2 ^ (-k).toNat, den)

/-- Removal of the factors two of a mantissa, adjusting the exponent. -/
def stripTwos : Nat → Nat → Int → Nat × Int
  | 0, m, e => (m, e)
  | fuel + 1, m, e => if m % 2 = 0 ∧ m ≠ 0 then stripTwos fuel (m / 2) (e + 1) else (m, e)

/-- The binary64 value nearest to the non-negative fraction `num / den`, ties to even, with
the sign `neg`: 53 significant bits, exponents from `-1074` to `971`, overflow to infinity.
The result is canonical: its mantissa is odd, or it is `fin false 0 0`. -/
def roundBinary64 (neg : Bool) (num den : Nat) : JsNumber :=
  if den = 0 then JsNumber.nan
  else if num = 0 then JsNumber.fin false 0 0
  else
    let e0 : Int := (bitLength num : Int) - (bitLength den : Int)
    let p := scale2 num den e0
    let e1 : Int := if p.2 ≤ p.1 then e0 else e0 - 1
    let u : Int := max e1 (-1022) - 52
    let q := scale2 num den u
    let n0 := q.1 / q.2
    let r := q.1 % q.2
    let n := if q.2 < 2 * r ∨ (2 * r = q.2 ∧ n0 % 2 = 1) then n0 + 1 else n0
    if n = 0 then JsNumber.fin false 0 0
    else if 1024 < (bitLength n : Int) + u then JsNumber.inf neg
    else
      let s := stripTwos (bitLength n) n u
      JsNumber.fin neg s.1 s.2

/-- The canonical representative of a Number. -/
def JsNumber.canon : JsNumber → JsNumber
  | JsNumber.nan => JsNumber.nan
  | JsNumber.inf neg => JsNumber.inf neg
  | JsNumber.fin neg m e =>
    if 0 ≤ e then roundBinary64 neg (m * 2 ^ e.toNat) 1 else roundBinary64 neg m (2 ^ (-e).toNat)

/-- The Number with the value of the natural number `n`. -/
def JsNumber.ofNat (n : Nat) : JsNumber :=
  roundBinary64 false n 1

/-- Strict equality `===` on Numbers: `NaN` equals nothing, not even itself. -/
def strictEq (a b : JsNumber) : Bool :=
  match a.canon, b.canon with
  | JsNumber.nan, _ => false
  | _, JsNumber.nan => false
  | x, y => decide (x = y)

/-- Strict inequality `!==` on Numbers. -/
def strictNe (a b : JsNumber) : Bool :=
  !strictEq a b

/-- The value of a digit in the given base, if the character is one. -/
def digitVal (base : Nat) (c : Char) : Option Nat :=
  let n := c.toNat
  let v : Option Nat :=
    if 48 ≤ n ∧ n ≤ 57 then some (n - 48)
    else if 97 ≤ n ∧ n ≤ 102 then some (n - 87)
    else if 65 ≤ n ∧ n ≤ 70 then some (n - 55)
    else none
  match v with
  | some d => if d < base then some d else none
  | none => none

/-- The value of a string of digits in the given base, read from an accumulator. -/
def digitsValAux (base : Nat) : Nat → List Char → Option Nat
  | acc, [] => some acc
  | acc, c :: cs =>
    match digitVal base c with
    | some d => digitsValAux base (acc * base + d) cs
    | none => none

/-- The value of a non-empty string of digits in the given base. -/
def digitsVal (base : Nat) (cs : List Char) : Option Nat :=
  if cs = [] then none else digitsValAux base 0 cs

/-- Optional sign of a literal: whether it is negative, and the rest. -/
def takeSign : List Char → Bool × List Char
  | '-' :: cs => (true, cs)
  | '+' :: cs => (false, cs)
  | cs => (false, cs)

/-- The exponent part of a decimal literal: the characters after `e`. -/
def exponentVal (cs : List Char) : Option Int :=
  let p := takeSign cs
  match digitsVal 10 p.2 with
  | some v => some (if p.1 then -(v : Int) else (v : Int))
  | none => none

/-- The production `StrUnsignedDecimalLiteral` other than `Infinity`, with the sign `neg`
already read. -/
def decimalLiteral (neg : Bool) (cs : List Char) : JsNumber :=
  let p := cs.span (fun c => c ≠ 'e' ∧ c ≠ 'E')
  let q := p.1.span (fun c => c ≠ '.')
  let intPart := q.1
  let frac := q.2.drop 1
  let ex : Option Int :=
    match p.2 with
    | [] => some 0
    | _ :: rest => exponentVal rest
  if intPart = [] ∧ frac = [] then JsNumber.nan
  else
    match digitsValAux 10 0 (intPart ++ frac), ex with
    | some d, some x =>
      let k : Int := x - (frac.length : Int)
      if 0 ≤ k then roundBinary64 neg (d * 10 ^ k.toNat) 1
      else roundBinary64 neg d (10 ^ (-k).toNat)
    | _, _ => JsNumber.nan

/-- The production `StrNumericLiteral` on a string without surrounding white space. -/
def numericLiteral (cs : List Char) : JsNumber :=
  let radix (base : Nat) (ds : List Char) : JsNumber :=
    match digitsVal base ds with
    | some v => roundBinary64 false v 1
    | none => JsNumber.nan
  match cs with
  | [] => JsNumber.fin false 0 0
  | '0' :: 'x' :: ds => radix 16 ds
  | '0' :: 'X' :: ds => radix 16 ds
  | '0' :: 'o' :: ds => radix 8 ds
  | '0' :: 'O' :: ds => radix 8 ds
  | '0' :: 'b' :: ds => radix 2 ds
  | '0' :: 'B' :: ds => radix 2 ds
  | _ =>
    let p := takeSign cs
    if p.2 = "Infinity".data then JsNumber.inf p.1 else decimalLiteral p.1 p.2

/-- The abstract operation `StringToNumber`: the unary plus applied to a string. -/
def stringToNumber (s : String) : JsNumber :=
  numericLiteral (trimChars s.data)

/-- The decimal digits of `n`, most significant first, accumulated with fuel. -/
def natDigitsAux : Nat → Nat → List Char → List Char
  | 0, _, acc => acc
  | fuel + 1, n, acc =>
    let acc1 := Char.ofNat (48 + n % 10) :: acc
    if n / 10 = 0 then acc1 else natDigitsAux fuel (n / 10) acc1

/-- The decimal digits of `n`, most significant first (`0` is the single digit `0`). -/
def natDigits (n : Nat) : List Char :=
  natDigitsAux (n + 1) n []

/-- The fraction `num / den` multiplied by `10 ^ k`. -/
def scale10 (num den : Nat) (k : Int) : Nat × Nat :=
  if 0 ≤ k then (num * 10 ^ k.toNat, den) else (num, den * 10 ^ (-k).toNat)

/-- The decimal exponent `n` of the positive fraction `num / den`:
`10 ^ (n - 1) ≤ num / den < 10 ^ n`. -/
def decimalExponent (num den : Nat) : Int :=
  let d : Int := ((natDigits num).length : Int) - ((natDigits den).length : Int)
  let p := scale10 num den (-d)
  if p.2 ≤ p.1 then d + 1 else d

/-- Search for the shortest decimal `s · 10 ^ (n - k)` with `k` digits that converts back to
the canonical double `x = num / den`, trying `k, k + 1, ...` for `fuel` rounds; of the two
neighbours of `x` with `k` digits the nearer one is taken. -/
def shortestDecimal (x : JsNumber) (num den : Nat) (n0 : Int) : Nat → Nat → Nat × Int × Nat
  | 0, k => ((scale10 num den ((k : Int) - n0)).1 / (scale10 num den ((k : Int) - n0)).2, n0, k)
  | fuel + 1, k =>
    let p := scale10 num den ((k : Int) - n0)
    let lo := p.1 / p.2
    let r := p.1 % p.2
    let hi : Nat × Int := if lo + 1 = 10 ^ k then (10 ^ (k - 1), n0 + 1) else (lo + 1, n0)
    let back (s : Nat) (n : Int) : JsNumber :=
      let b := scale10 s 1 (n - (k : Int))
      roundBinary64 false b.1 b.2
    let okLo := decide (back lo n0 = x)
    let okHi := decide (back hi.1 hi.2 = x)
    if okLo && okHi then
      (if 2 * r < p.2 ∨ (2 * r = p.2 ∧ lo % 2 = 0) then (lo, n0, k) else (hi.1, hi.2, k))
    else if okLo then (lo, n0, k)
    else if okHi then (hi.1, hi.2, k)
    else shortestDecimal x num den n0 fuel (k + 1)

/-- The layout of `Number::toString` for the digits `ds` of `s` and the exponent `n`. -/
def formatDecimal (ds : List Char) (n : Int) : List Char :=
  let k : Int := (ds.length : Int)
  if k ≤ n ∧ n ≤ 21 then ds ++ List.replicate (n - k).toNat '0'
  else if 0 < n ∧ n ≤ 21 then ds.take n.toNat ++ '.' :: ds.drop n.toNat
  else if -6 < n ∧ n ≤ 0 then '0' :: '.' :: (List.replicate (-n).toNat '0' ++ ds)
  else
    let e : Int := n - 1
    let es : List Char := (if e < 0 then '-' else '+') :: natDigits e.natAbs
    match ds with
    | [] => []
    | [d] => d :: 'e' :: es
    | d :: rest => d :: '.' :: (rest ++ 'e' :: es)

/-- The operation `Number::toString` (radix 10): the shortest decimal that converts back to
the same double. -/
def numberToString (x : JsNumber) : String :=
  match x.canon with
  | JsNumber.nan => "NaN"
  | JsNumber.inf neg => if neg then "-Infinity" else "Infinity"
  | JsNumber.fin neg m e =>
    if m = 0 then "0"
    else
      let q : Nat × Nat := if 0 ≤ e then (m * 2 ^ e.toNat, 1) else (m, 2 ^ (-e).toNat)
      let n0 := decimalExponent q.1 q.2
      let t := shortestDecimal (JsNumber.fin false m e) q.1 q.2 n0 17 1
      String.mk ((if neg then ['-'] else []) ++ formatDecimal (natDigits t.1) t.2.1)

/-- The identifier of a todo item as it arrives in a JSON response: a string or a number
("stringly-typed but numerically comparable"). -/
inductive JsId where
  | str (s : String)
  | num (x : JsNumber)
  deriving DecidableEq, Repr

/-- The abstract operation `ToNumber` on an identifier, as in `+todo.id` and `+id`. -/
def toNumber : JsId → JsNumber
  | JsId.str s => stringToNumber s
  | JsId.num x => x

/-- The abstract operation `ToString` on an identifier, as in the template literal
`${todo.id}`. -/
def idToString : JsId → String
  | JsId.str s => s
  | JsId.num x => numberToString x

/-! ## Data model and the browser -/

/-- A todo item `{id, title}` of a JSON response. -/
structure Todo where
  id : JsId
  title : String
  deriving DecidableEq, Repr

/-- The calls whose number and order the properties speak about, recorded as they happen:
the three requests of `APIs` (reached through `Model`), an entry into the `todos` setter
(where the source writes `console.log("setter")`), and `alert`. -/
inductive Call where
  | getTodos
  | addTodo (title : String)
  | removeTodo (id : String)
  | setTodos (newTodo : List Todo)
  | alert (msg : String)
  deriving DecidableEq, Repr

/-- What `index.js` reads and writes outside its own variables: the markup inside the
`.todo-list` element (`View.todoListEl.innerHTML`), the text of the first input of the form
(`event.target[0].value`), and the record of calls made so far. -/
structure Browser where
  todoListHtml : String
  inputValue : String
  calls : List Call
  deriving DecidableEq, Repr

/-- Record a call. -/
def Browser.log (b : Browser) (c : Call) : Browser :=
  { b with calls := b.calls ++ [c] }

/-! ## `Model.State` -/

/-- The class `State`: the private fields `#todos` and `#onChange`. A callback takes no
argument; what it can learn from the container is what the `todos` getter returns, so it is
a function of that list, acting on the browser. -/
structure State where
  todos : List Todo
  onChange : Option (List Todo → Browser → Browser)

/-- The constructor: `#todos = []`, `#onChange` left undefined. -/
def State.new : State :=
  { todos := [], onChange := none }

/-- The getter `get todos()`. -/
def State.get_todos (s : State) : List Todo :=
  s.todos

/-- The setter `set todos(newTodo)`: assign `#todos`, then call `#onChange?.()`. -/
def State.set_todos (s : State) (newTodo : List Todo) (b : Browser) : State × Browser :=
  let b1 := b.log (Call.setTodos newTodo)
  let s1 : State := { s with todos := newTodo }
  match s1.onChange with
  | some callback => (s1, callback s1.get_todos b1)
  | none => (s1, b1)

/-- The method `subscribe(callback)`. -/
def State.subscribe (s : State) (callback : List Todo → Browser → Browser) : State :=
  { s with onChange := some callback }

/-! ## `View` -/

/-- The row `todoTemplate` built for one item inside `updateTodoList`. -/
def todoTemplate (todo : Todo) : String :=
  "<li><span>" ++ todo.title ++ "</span><button class=\"btn--delete\" id=\"" ++
    idToString todo.id ++ "\">remove</button></li>"

/-- The function `View.updateTodoList`. -/
def updateTodoList (todos : List Todo) (b : Browser) : Browser :=
  let template := todos.foldl (fun template todo => template ++ todoTemplate todo) ""
  let template := if todos.length = 0 then "no task to display" else template
  { b with todoListHtml := template }

/-! ## `ViewModel` -/

/-- A request in flight, with the promise chain `index.js` attached to it. -/
inductive Request where
  | getTodos
  | addTodo (title : String)
  | removeTodo (id : String)
  deriving DecidableEq, Repr

/-- The whole program state: the `state` object of the `ViewModel`, the browser, the
requests in flight, and how many listeners the form and the list container carry. -/
structure World where
  state : State
  browser : Browser
  pending : List Request
  submitListeners : Nat
  clickListeners : Nat

/-- The function `ViewModel.getTodos`: start the request. -/
def getTodos (w : World) : World :=
  { w with browser := w.browser.log Call.getTodos, pending := w.pending ++ [Request.getTodos] }

/-- The continuation `(res) => { state.todos = res }` of `getTodos`. -/
def getTodosThen (res : List Todo) (w : World) : World :=
  let r := w.state.set_todos res w.browser
  { w with state := r.1, browser := r.2 }

/-- The function `ViewModel.addTodo`: register the submit listener. -/
def addTodo (w : World) : World :=
  { w with submitListeners := w.submitListeners + 1 }

/-- The submit listener registered by `addTodo`. -/
def submitListener (w : World) : World :=
  let title := w.browser.inputValue
  if trim title = "" then
    { w with browser := w.browser.log (Call.alert "please input title!") }
  else
    { w with browser := w.browser.log (Call.addTodo title),
             pending := w.pending ++ [Request.addTodo title] }

/-- The continuation `.then((res) => ...)` of the request made by the submit listener. -/
def addTodoThen (res : Todo) (w : World) : World :=
  let r := w.state.set_todos (res :: w.state.get_todos) w.browser
  { w with state := r.1, browser := { r.2 with inputValue := "" } }

/-- The continuation `.catch((err) => ...)` of the request made by the submit listener;
`err` is the text `${err}`. -/
def addTodoCatch (err : String) (w : World) : World :=
  { w with browser := w.browser.log (Call.alert ("add new task failed: " ++ err)) }

/-- The function `ViewModel.removeTodo`: register the click listener. -/
def removeTodo (w : World) : World :=
  { w with clickListeners := w.clickListeners + 1 }

/-- The click listener registered by `removeTodo`, for a click whose target has the given
`className` and `id`. -/
def clickListener (className id : String) (w : World) : World :=
  if className = "btn--delete" then
    { w with browser := w.browser.log (Call.removeTodo id),
             pending := w.pending ++ [Request.removeTodo id] }
  else w

/-- The continuation `.then(res => ...)` of the request made by the click listener. -/
def removeTodoThen (id : String) (w : World) : World :=
  let r := w.state.set_todos
    (w.state.get_todos.filter (fun todo => strictNe (toNumber todo.id) (toNumber (JsId.str id))))
    w.browser
  { w with state := r.1, browser := r.2 }

/-- The continuation `.catch(err => ...)` of the request made by the click listener. -/
def removeTodoCatch (err : String) (w : World) : World :=
  { w with browser := w.browser.log (Call.alert ("delete todo failed: " ++ err)) }

/-- The callback given to `state.subscribe` in `bootstrap`. -/
def renderCallback : List Todo → Browser → Browser :=
  fun todos b => updateTodoList todos b

/-- The function `ViewModel.bootstrap`. -/
def bootstrap (w : World) : World :=
  let w1 := addTodo w
  let w2 := getTodos w1
  let w3 := removeTodo w2
  { w3 with state := w3.state.subscribe renderCallback }

/-! ## The event loop -/

/-- What can happen after the script has run: the user edits the input, submits the form or
clicks inside the list container, or the request at position `i` of the requests in flight
completes, with a result or with an error (given as the text `${err}`). -/
inductive Event where
  | input (text : String)
  | submit
  | click (className id : String)
  | getTodosSettled (i : Nat) (res : Except String (List Todo))
  | addTodoSettled (i : Nat) (res : Except String Todo)
  | removeTodoSettled (i : Nat) (res : Except String Unit)

/-- One turn of the event loop: the event is handled to completion. A completion that names
no request of its kind changes nothing. -/
def step (w : World) : Event → World
  | Event.input text => { w with browser := { w.browser with inputValue := text } }
  | Event.submit => Nat.iterate submitListener w.submitListeners w
  | Event.click className id => Nat.iterate (clickListener className id) w.clickListeners w
  | Event.getTodosSettled i res =>
    match w.pending[i]? with
    | some Request.getTodos =>
      let w1 := { w with pending := w.pending.eraseIdx i }
      match res with
      | Except.ok l => getTodosThen l w1
      | Except.error _ => w1
    | _ => w
  | Event.addTodoSettled i res =>
    match w.pending[i]? with
    | some (Request.addTodo _) =>
      let w1 := { w with pending := w.pending.eraseIdx i }
      match res with
      | Except.ok t => addTodoThen t w1
      | Except.error err => addTodoCatch err w1
    | _ => w
  | Event.removeTodoSettled i res =>
    match w.pending[i]? with
    | some (Request.removeTodo id) =>
      let w1 := { w with pending := w.pending.eraseIdx i }
      match res with
      | Except.ok _ => removeTodoThen id w1
      | Except.error err => removeTodoCatch err w1
    | _ => w

/-- A sequence of turns. -/
def run (w : World) (es : List Event) : World :=
  es.foldl step w

/-- The state when the script starts: `new Model.State()`, nothing requested, no listener;
the markup of the list container and the text of the input come from the page. -/
def World.initial (todoListHtml inputValue : String) : World :=
  { state := State.new,
    browser := { todoListHtml := todoListHtml, inputValue := inputValue, calls := [] },
    pending := [], submitListeners := 0, clickListeners := 0 }

/-- The program: the script runs `ViewModel.bootstrap()` once, then events arrive. -/
def app (todoListHtml inputValue : String) (es : List Event) : World :=
  run (bootstrap (World.initial todoListHtml inputValue)) es

/-! ## Definitions used to state the auxiliary facts -/

/-- The text shown for an empty list. -/
def placeholder : String :=
  "no task to display"

/-- The markup `updateTodoList` writes for a list, as a function of the list alone. -/
def markup (todos : List Todo) : String :=
  if todos = [] then placeholder else String.join (todos.map todoTemplate)

/-- What `bootstrap` establishes and every later turn keeps: one listener on the form, one
on the list container, and the renderer subscribed to the state. -/
def Booted (w : World) : Prop :=
  w.submitListeners = 1 ∧ w.clickListeners = 1 ∧ w.state.onChange = some renderCallback

/-- The items the click continuation keeps for the clicked element id `id`: the filter
`todo => +todo.id !== +id`. -/
def kept (id : String) (todos : List Todo) : List Todo :=
  todos.filter (fun todo => strictNe (toNumber todo.id) (toNumber (JsId.str id)))

/-! ## Auxiliary facts -/

theorem foldl_append_acc (l : List String) (acc : String) :
    l.foldl (fun r x => r ++ x) acc = acc ++ l.foldl (fun r x => r ++ x) "" := by
  induction l generalizing acc with
  | nil => simp
  | cons x xs ih =>
    simp only [List.foldl_cons]
    rw [ih (acc ++ x), ih ("" ++ x)]
    simp [String.append_assoc]

theorem join_cons (x : String) (xs : List String) :
    String.join (x :: xs) = x ++ String.join xs := by
  simp only [String.join, List.foldl_cons]
  rw [foldl_append_acc]
  simp

theorem foldl_template (todos : List Todo) (acc : String) :
    todos.foldl (fun template todo => template ++ todoTemplate todo) acc =
      acc ++ String.join (todos.map todoTemplate) := by
  induction todos generalizing acc with
  | nil => simp [String.join]
  | cons t ts ih =>
    simp only [List.foldl_cons, List.map_cons, join_cons, ih, String.append_assoc]

theorem updateTodoList_html (todos : List Todo) (b : Browser) :
    (updateTodoList todos b).todoListHtml = markup todos := by
  cases todos with
  | nil => simp [updateTodoList, markup, placeholder]
  | cons t ts =>
    simp only [updateTodoList, markup, foldl_template, List.length_cons]
    simp

theorem updateTodoList_eq (todos : List Todo) (b : Browser) :
    updateTodoList todos b = { b with todoListHtml := markup todos } := by
  have h := updateTodoList_html todos b
  simp only [updateTodoList] at h ⊢
  rw [h]

theorem set_todos_render (s : State) (h : s.onChange = some renderCallback)
    (l : List Todo) (b : Browser) :
    s.set_todos l b =
      ({ s with todos := l }, { b.log (Call.setTodos l) with todoListHtml := markup l }) := by
  simp only [State.set_todos, h, renderCallback, State.get_todos, updateTodoList_eq]

theorem booted_bootstrap (html value : String) :
    Booted (bootstrap (World.initial html value)) := by
  refine ⟨rfl, rfl, rfl⟩

theorem step_submit (w : World) (h : Booted w) :
    step w Event.submit = submitListener w := by
  simp [step, h.1]

theorem step_click (w : World) (h : Booted w) (className id : String) :
    step w (Event.click className id) = clickListener className id w := by
  simp [step, h.2.1]

theorem step_getTodos_ok (w : World) (i : Nat) (l : List Todo)
    (h : w.pending[i]? = some Request.getTodos) :
    step w (Event.getTodosSettled i (Except.ok l)) =
      getTodosThen l { w with pending := w.pending.eraseIdx i } := by
  simp [step, h]

theorem step_getTodos_error (w : World) (i : Nat) (err : String)
    (h : w.pending[i]? = some Request.getTodos) :
    step w (Event.getTodosSettled i (Except.error err)) =
      { w with pending := w.pending.eraseIdx i } := by
  simp [step, h]

theorem step_addTodo_ok (w : World) (i : Nat) (title : String) (t : Todo)
    (h : w.pending[i]? = some (Request.addTodo title)) :
    step w (Event.addTodoSettled i (Except.ok t)) =
      addTodoThen t { w with pending := w.pending.eraseIdx i } := by
  simp [step, h]

theorem step_addTodo_error (w : World) (i : Nat) (title err : String)
    (h : w.pending[i]? = some (Request.addTodo title)) :
    step w (Event.addTodoSettled i (Except.error err)) =
      addTodoCatch err { w with pending := w.pending.eraseIdx i } := by
  simp [step, h]

theorem step_removeTodo_ok (w : World) (i : Nat) (id : String)
    (h : w.pending[i]? = some (Request.removeTodo id)) :
    step w (Event.removeTodoSettled i (Except.ok ())) =
      removeTodoThen id { w with pending := w.pending.eraseIdx i } := by
  simp [step, h]

theorem booted_submitListener (w : World) (h : Booted w) : Booted (submitListener w) := by
  simp only [submitListener]
  split <;> exact h

theorem booted_clickListener (w : World) (h : Booted w) (className id : String) :
    Booted (clickListener className id w) := by
  simp only [clickListener]
  split <;> exact h

theorem booted_step (w : World) (h : Booted w) (e : Event) : Booted (step w e) := by
  cases e with
  | input text => exact h
  | submit => rw [step_submit w h]; exact booted_submitListener w h
  | click className id => rw [step_click w h]; exact booted_clickListener w h className id
  | getTodosSettled i res =>
    simp only [step]
    split
    · cases res with
      | ok l => exact ⟨h.1, h.2.1, by simp [getTodosThen, State.set_todos, h.2.2]⟩
      | error err => exact h
    · exact h
  | addTodoSettled i res =>
    simp only [step]
    split
    · cases res with
      | ok t => exact ⟨h.1, h.2.1, by simp [addTodoThen, State.set_todos, h.2.2]⟩
      | error err => exact h
    · exact h
  | removeTodoSettled i res =>
    simp only [step]
    split
    · cases res with
      | ok u => exact ⟨h.1, h.2.1, by simp [removeTodoThen, State.set_todos, h.2.2]⟩
      | error err => exact h
    · exact h

theorem booted_run (es : List Event) (w : World) (h : Booted w) : Booted (run w es) := by
  induction es generalizing w with
  | nil => exact h
  | cons e es ih => exact ih (step w e) (booted_step w h e)

theorem booted_app (html value : String) (es : List Event) : Booted (app html value es) :=
  booted_run es _ (booted_bootstrap html value)

theorem markup_cons_head (t : Todo) (ts : List Todo) :
    (markup (t :: ts)).data.head? = some '<' := by
  simp only [markup, List.map_cons, join_cons, todoTemplate, String.data_append]
  simp

theorem addTodoThen_booted (w : World) (h : Booted w) (r : Todo) :
    addTodoThen r w =
      { w with
        state := { w.state with todos := r :: w.state.todos },
        browser :=
          { todoListHtml := markup (r :: w.state.todos), inputValue := "",
            calls := w.browser.calls ++ [Call.setTodos (r :: w.state.todos)] } } := by
  simp only [addTodoThen, State.get_todos, set_todos_render w.state h.2.2, Browser.log]

theorem getTodosThen_booted (w : World) (h : Booted w) (l : List Todo) :
    getTodosThen l w =
      { w with
        state := { w.state with todos := l },
        browser :=
          { todoListHtml := markup l, inputValue := w.browser.inputValue,
            calls := w.browser.calls ++ [Call.setTodos l] } } := by
  simp only [getTodosThen, set_todos_render w.state h.2.2, Browser.log]

theorem removeTodoThen_booted (w : World) (h : Booted w) (id : String) :
    removeTodoThen id w =
      { w with
        state := { w.state with todos := kept id w.state.todos },
        browser :=
          { todoListHtml := markup (kept id w.state.todos),
            inputValue := w.browser.inputValue,
            calls := w.browser.calls ++ [Call.setTodos (kept id w.state.todos)] } } := by
  simp only [removeTodoThen, State.get_todos, set_todos_render w.state h.2.2, Browser.log, kept]

theorem strictEq_nan_right (a b : JsNumber) (h : b = JsNumber.nan) : strictEq a b = false := by
  subst h
  unfold strictEq
  cases a.canon <;> rfl

theorem strictEq_canon (a b : JsNumber) (h : strictEq a b = true) : a.canon = b.canon := by
  unfold strictEq at h
  split at h
  · exact absurd h (by simp)
  · exact absurd h (by simp)
  · exact of_decide_eq_true h

theorem strictEq_congr_left (a b c : JsNumber) (h : a.canon = b.canon) :
    strictEq a c = strictEq b c := by
  unfold strictEq
  rw [h]

/-! ## The properties -/

/-- C4: `View.updateTodoList` overwrites the contents of the list container, whatever they
were, and touches nothing else: with exactly the text "no task to display" for the empty
list, and otherwise with the concatenation, in list order, of one row per item (so `n` rows
for `n` items, and never the placeholder); a row holds the item's title and a button of
class `btn--delete` whose element id is the item's id. -/
theorem updateTodoList_overwrites_with_rows (L : List Todo) (b : Browser) (t : Todo)
    (ts : List Todo) :
    (updateTodoList L b).todoListHtml =
      (if L = [] then "no task to display" else String.join (L.map todoTemplate)) ∧
    (updateTodoList L b).inputValue = b.inputValue ∧
    (updateTodoList L b).calls = b.calls ∧
    (updateTodoList [] b).todoListHtml = "no task to display" ∧
    (updateTodoList (t :: ts) b).todoListHtml = String.join ((t :: ts).map todoTemplate) ∧
    ((t :: ts).map todoTemplate).length = (t :: ts).length ∧
    (updateTodoList (t :: ts) b).todoListHtml ≠ "no task to display" ∧
    todoTemplate t = "<li><span>" ++ t.title ++ "</span><button class=\"btn--delete\" id=\"" ++
      idToString t.id ++ "\">remove</button></li>" := by
  refine ⟨updateTodoList_html L b, rfl, rfl, ?_, ?_, ?_, ?_, rfl⟩
  · rw [updateTodoList_html]; rfl
  · rw [updateTodoList_html]; simp [markup]
  · simp
  · rw [updateTodoList_html]
    intro h
    have h1 := markup_cons_head t ts
    rw [h] at h1
    revert h1
    decide

/-- C5: the `todos` setter replaces the list and then calls the subscribed callback exactly
once, and the callback reads the new list from the getter, never the previous one; with no
callback the list is replaced and nothing else happens. The third part makes both visible
with a callback that records what it read. -/
theorem set_todos_replaces_then_notifies (old newList : List Todo) (b : Browser)
    (callback : List Todo → Browser → Browser) (probe : List Todo → Call) :
    State.set_todos { todos := old, onChange := some callback } newList b =
      ({ todos := newList, onChange := some callback },
        callback newList (b.log (Call.setTodos newList))) ∧
    State.set_todos { todos := old, onChange := none } newList b =
      ({ todos := newList, onChange := none }, b.log (Call.setTodos newList)) ∧
    (State.set_todos { todos := old, onChange := some (fun l x => x.log (probe l)) }
      newList b).2.calls = b.calls ++ [Call.setTodos newList, probe newList] ∧
    (State.set_todos { todos := old, onChange := some callback } newList b).1.get_todos =
      newList ∧
    (State.set_todos { todos := old, onChange := none } newList b).1.get_todos = newList := by
  refine ⟨rfl, rfl, ?_, rfl, rfl⟩
  simp [State.set_todos, Browser.log, State.get_todos]

/-- C9: rendering is idempotent: `updateTodoList L` applied twice leaves the browser exactly
as one application does, and the contents it writes depend on `L` alone, not on what the
container held before. -/
theorem updateTodoList_idempotent (L : List Todo) (b b2 : Browser) :
    updateTodoList L (updateTodoList L b) = updateTodoList L b ∧
    (updateTodoList L (updateTodoList L b)).todoListHtml = (updateTodoList L b).todoListHtml ∧
    (updateTodoList L b).todoListHtml = (updateTodoList L b2).todoListHtml := by
  refine ⟨?_, ?_, ?_⟩
  · simp [updateTodoList_eq]
  · rw [updateTodoList_html, updateTodoList_html]
  · rw [updateTodoList_html, updateTodoList_html]

/-- C1: when the text of the input is `title` and its trimmed text is not empty, a submit
makes exactly one call, the create request with that exact title, and changes no list; and
whenever that request later succeeds with the item `r`, exactly one call follows, the setter
with `r` in front of the list held at that moment: one element more, `r` first, the previous
list after it in the same order. The input is cleared and the container shows the rendering
of the new list. -/
theorem submit_creates_then_prepends (html value : String) (es : List Event) (title : String)
    (hvalue : (app html value es).browser.inputValue = title) (hne : trim title ≠ "") :
    (step (app html value es) Event.submit).browser.calls =
      (app html value es).browser.calls ++ [Call.addTodo title] ∧
    (step (app html value es) Event.submit).pending =
      (app html value es).pending ++ [Request.addTodo title] ∧
    (step (app html value es) Event.submit).state.todos = (app html value es).state.todos ∧
    ∀ (es2 : List Event) (i : Nat) (r : Todo),
      (run (step (app html value es) Event.submit) es2).pending[i]? =
        some (Request.addTodo title) →
      let w2 := run (step (app html value es) Event.submit) es2
      let w3 := step w2 (Event.addTodoSettled i (Except.ok r))
      w3.browser.calls = w2.browser.calls ++ [Call.setTodos (r :: w2.state.todos)] ∧
      w3.state.todos = r :: w2.state.todos ∧
      w3.state.todos.length = w2.state.todos.length + 1 ∧
      w3.state.todos.head? = some r ∧
      w3.state.todos.tail = w2.state.todos ∧
      w3.browser.inputValue = "" ∧
      w3.browser.todoListHtml =
        (updateTodoList (r :: w2.state.todos) w2.browser).todoListHtml := by
  have hb := booted_app html value es
  have hs : step (app html value es) Event.submit =
      { app html value es with
        browser := (app html value es).browser.log (Call.addTodo title),
        pending := (app html value es).pending ++ [Request.addTodo title] } := by
    rw [step_submit _ hb]
    simp only [submitListener, hvalue, if_neg hne]
  refine ⟨by rw [hs]; rfl, by rw [hs], by rw [hs], ?_⟩
  intro es2 i r hreq w2 w3
  have hb2 : Booted w2 := booted_run es2 _ (booted_step _ hb _)
  have h3 : w3 = addTodoThen r { w2 with pending := w2.pending.eraseIdx i } :=
    step_addTodo_ok w2 i title r hreq
  have hb3 : Booted { w2 with pending := w2.pending.eraseIdx i } := hb2
  rw [addTodoThen_booted _ hb3] at h3
  rw [h3, updateTodoList_html]
  simp

/-- Witness for C1: the title "milk" is typed and submitted after the initial load returned
one item, and the create request, the only one in flight, succeeds. -/
theorem submit_creates_then_prepends_witness :
    (app "" "" [Event.getTodosSettled 0 (Except.ok [⟨JsId.str "1", "tea"⟩]),
      Event.input "milk"]).browser.inputValue = "milk" ∧
    trim "milk" ≠ "" ∧
    (step (app "" "" [Event.getTodosSettled 0 (Except.ok [⟨JsId.str "1", "tea"⟩]),
        Event.input "milk"]) Event.submit).browser.calls =
      [Call.getTodos, Call.setTodos [⟨JsId.str "1", "tea"⟩], Call.addTodo "milk"] ∧
    (run (step (app "" "" [Event.getTodosSettled 0 (Except.ok [⟨JsId.str "1", "tea"⟩]),
        Event.input "milk"]) Event.submit) []).pending[0]? = some (Request.addTodo "milk") ∧
    (step (run (step (app "" "" [Event.getTodosSettled 0 (Except.ok [⟨JsId.str "1", "tea"⟩]),
        Event.input "milk"]) Event.submit) [])
      (Event.addTodoSettled 0 (Except.ok ⟨JsId.str "2", "milk"⟩))).state.todos =
      [⟨JsId.str "2", "milk"⟩, ⟨JsId.str "1", "tea"⟩] :=
  ⟨rfl, by decide,
   (submit_creates_then_prepends "" ""
      [Event.getTodosSettled 0 (Except.ok [⟨JsId.str "1", "tea"⟩]), Event.input "milk"]
      "milk" rfl (by decide)).1,
   rfl,
   ((submit_creates_then_prepends "" ""
      [Event.getTodosSettled 0 (Except.ok [⟨JsId.str "1", "tea"⟩]), Event.input "milk"]
      "milk" rfl (by decide)).2.2.2 [] 0 ⟨JsId.str "2", "milk"⟩ rfl).2.1⟩

/-- C2: when the trimmed text of the input is empty (as for "" and for three blanks), a
submit makes exactly one call, the warning: no create request and no setter call; nothing is
put in flight, and the list and the contents of the container are as before. -/
theorem submit_blank_title_only_warns (html value : String) (es : List Event)
    (hblank : trim (app html value es).browser.inputValue = "") :
    step (app html value es) Event.submit =
      { app html value es with
        browser := (app html value es).browser.log (Call.alert "please input title!") } ∧
    (step (app html value es) Event.submit).browser.calls =
      (app html value es).browser.calls ++ [Call.alert "please input title!"] ∧
    (step (app html value es) Event.submit).pending = (app html value es).pending ∧
    (step (app html value es) Event.submit).state.todos = (app html value es).state.todos ∧
    (step (app html value es) Event.submit).browser.todoListHtml =
      (app html value es).browser.todoListHtml ∧
    trim "" = "" ∧ trim "   " = "" := by
  have hs : step (app html value es) Event.submit =
      { app html value es with
        browser := (app html value es).browser.log (Call.alert "please input title!") } := by
    rw [step_submit _ (booted_app html value es)]
    simp only [submitListener, if_pos hblank]
  refine ⟨hs, by rw [hs]; rfl, by rw [hs], by rw [hs], by rw [hs]; rfl, by decide, by decide⟩

/-- Witness for C2: three blanks are typed and submitted. -/
theorem submit_blank_title_only_warns_witness :
    trim (app "" "" [Event.input "   "]).browser.inputValue = "" ∧
    (step (app "" "" [Event.input "   "]) Event.submit).browser.calls =
      [Call.getTodos, Call.alert "please input title!"] ∧
    (step (app "" "" [Event.input "   "]) Event.submit).pending = [Request.getTodos] :=
  ⟨by decide,
   (submit_blank_title_only_warns "" "" [Event.input "   "] (by decide)).2.1,
   (submit_blank_title_only_warns "" "" [Event.input "   "] (by decide)).2.2.1⟩

/-- C8: when a create request in flight fails with the error text `e`, exactly one call
follows, an alert whose text contains `e`; the setter is not called, and the list, the
contents of the container and the text of the input are as before the failure. Every create
request in flight was made by a submit with a title that does not trim to empty. -/
theorem create_failure_alerts_and_keeps_list (html value : String) (es : List Event)
    (title e : String) (i : Nat)
    (hreq : (app html value es).pending[i]? = some (Request.addTodo title)) :
    (step (app html value es) (Event.addTodoSettled i (Except.error e))).browser.calls =
      (app html value es).browser.calls ++ [Call.alert ("add new task failed: " ++ e)] ∧
    (∃ pre post : String, "add new task failed: " ++ e = pre ++ e ++ post) ∧
    (step (app html value es) (Event.addTodoSettled i (Except.error e))).state.todos =
      (app html value es).state.todos ∧
    (step (app html value es) (Event.addTodoSettled i (Except.error e))).browser.todoListHtml =
      (app html value es).browser.todoListHtml ∧
    (step (app html value es) (Event.addTodoSettled i (Except.error e))).browser.inputValue =
      (app html value es).browser.inputValue := by
  rw [step_addTodo_error _ i title e hreq]
  exact ⟨rfl, ⟨"add new task failed: ", "", by simp⟩, rfl, rfl, rfl⟩

/-- Witness for C8: the create request for "milk" fails with "network down". -/
theorem create_failure_alerts_and_keeps_list_witness :
    (app "" "" [Event.getTodosSettled 0 (Except.ok [⟨JsId.str "1", "tea"⟩]),
      Event.input "milk", Event.submit]).pending[0]? = some (Request.addTodo "milk") ∧
    (step (app "" "" [Event.getTodosSettled 0 (Except.ok [⟨JsId.str "1", "tea"⟩]),
        Event.input "milk", Event.submit])
      (Event.addTodoSettled 0 (Except.error "network down"))).browser.calls =
      [Call.getTodos, Call.setTodos [⟨JsId.str "1", "tea"⟩], Call.addTodo "milk",
        Call.alert "add new task failed: network down"] :=
  ⟨by decide,
   (create_failure_alerts_and_keeps_list "" ""
    [Event.getTodosSettled 0 (Except.ok [⟨JsId.str "1", "tea"⟩]), Event.input "milk",
      Event.submit] "milk" "network down" 0 (by decide)).1⟩

/-- C3: a click on a delete control with element id `d` makes exactly one call, the remove
request for `d`; whenever that request later succeeds, exactly one call follows, the setter
with the list held at that moment minus the items whose id, converted to a number, equals
`d` converted to a number: the items whose converted id differs from it, in their original
order. Only the number counts, not how the id is written: ids that convert to equal numbers
are kept or dropped together, and the string "7" and the number 7 convert to equal
numbers. -/
theorem remove_success_filters_numerically (html value : String) (es : List Event)
    (d : String) :
    (step (app html value es) (Event.click "btn--delete" d)).browser.calls =
      (app html value es).browser.calls ++ [Call.removeTodo d] ∧
    (step (app html value es) (Event.click "btn--delete" d)).pending =
      (app html value es).pending ++ [Request.removeTodo d] ∧
    (∀ (es2 : List Event) (i : Nat),
      (run (step (app html value es) (Event.click "btn--delete" d)) es2).pending[i]? =
        some (Request.removeTodo d) →
      let w2 := run (step (app html value es) (Event.click "btn--delete" d)) es2
      let w3 := step w2 (Event.removeTodoSettled i (Except.ok ()))
      w3.browser.calls = w2.browser.calls ++ [Call.setTodos w3.state.todos] ∧
      w3.state.todos = w2.state.todos.filter
        (fun todo => strictNe (toNumber todo.id) (toNumber (JsId.str d))) ∧
      w3.state.todos.Sublist w2.state.todos ∧
      (∀ todo, todo ∈ w3.state.todos ↔
        todo ∈ w2.state.todos ∧ strictEq (toNumber todo.id) (toNumber (JsId.str d)) = false) ∧
      w3.browser.todoListHtml = (updateTodoList w3.state.todos w2.browser).todoListHtml) ∧
    (∀ a b : JsId, strictEq (toNumber a) (toNumber b) = true →
      strictNe (toNumber a) (toNumber (JsId.str d)) =
        strictNe (toNumber b) (toNumber (JsId.str d))) ∧
    strictEq (toNumber (JsId.str "7")) (toNumber (JsId.num (JsNumber.fin false 7 0))) = true := by
  have hb := booted_app html value es
  have hs : step (app html value es) (Event.click "btn--delete" d) =
      { app html value es with
        browser := (app html value es).browser.log (Call.removeTodo d),
        pending := (app html value es).pending ++ [Request.removeTodo d] } := by
    rw [step_click _ hb]
    simp [clickListener]
  refine ⟨by rw [hs]; rfl, by rw [hs], ?_, ?_, by decide⟩
  · intro es2 i hreq w2 w3
    have hb2 : Booted w2 := booted_run es2 _ (booted_step _ hb _)
    have h3 : w3 = removeTodoThen d { w2 with pending := w2.pending.eraseIdx i } :=
      step_removeTodo_ok w2 i d hreq
    have hb3 : Booted { w2 with pending := w2.pending.eraseIdx i } := hb2
    rw [removeTodoThen_booted _ hb3] at h3
    rw [h3, updateTodoList_html]
    refine ⟨rfl, rfl, List.filter_sublist _, ?_, rfl⟩
    intro todo
    simp [kept, strictNe, List.mem_filter]
  · intro a b hab
    simp only [strictNe]
    rw [strictEq_congr_left _ _ _ (strictEq_canon _ _ hab)]

/-- Witness for C3: the list holds an item with the string id "7", one with the number 7 and
one with the number 8; the delete control with element id "7" is clicked and the request
succeeds. -/
theorem remove_success_filters_numerically_witness :
    (run (step (app "" "" [Event.getTodosSettled 0 (Except.ok
          [⟨JsId.str "7", "a"⟩, ⟨JsId.num (JsNumber.fin false 7 0), "b"⟩,
            ⟨JsId.num (JsNumber.fin false 8 0), "c"⟩])])
        (Event.click "btn--delete" "7")) []).pending[0]? = some (Request.removeTodo "7") ∧
    (step (run (step (app "" "" [Event.getTodosSettled 0 (Except.ok
          [⟨JsId.str "7", "a"⟩, ⟨JsId.num (JsNumber.fin false 7 0), "b"⟩,
            ⟨JsId.num (JsNumber.fin false 8 0), "c"⟩])])
        (Event.click "btn--delete" "7")) [])
      (Event.removeTodoSettled 0 (Except.ok ()))).state.todos =
      [⟨JsId.num (JsNumber.fin false 8 0), "c"⟩] := by
  refine ⟨rfl, ?_⟩
  have h := ((remove_success_filters_numerically "" "" [Event.getTodosSettled 0 (Except.ok
      [⟨JsId.str "7", "a"⟩, ⟨JsId.num (JsNumber.fin false 7 0), "b"⟩,
        ⟨JsId.num (JsNumber.fin false 8 0), "c"⟩])] "7").2.2.1 [] 0 rfl).2.1
  rw [h]
  decide

/-- C10: when the element id `d` of a remove request in flight converts to `NaN`, a success
of the request is followed by exactly one call, the setter with the list as it is: the
filter keeps every item, also an item whose id is `d` itself. -/
theorem remove_nan_id_keeps_every_item (html value : String) (es : List Event) (d : String)
    (i : Nat) (hreq : (app html value es).pending[i]? = some (Request.removeTodo d))
    (hnan : toNumber (JsId.str d) = JsNumber.nan) :
    (step (app html value es) (Event.removeTodoSettled i (Except.ok ()))).browser.calls =
      (app html value es).browser.calls ++ [Call.setTodos (app html value es).state.todos] ∧
    (step (app html value es) (Event.removeTodoSettled i (Except.ok ()))).state.todos =
      (app html value es).state.todos ∧
    (app html value es).state.todos.filter
      (fun todo => strictNe (toNumber todo.id) (toNumber (JsId.str d))) =
      (app html value es).state.todos ∧
    (∀ title, strictNe (toNumber (Todo.mk (JsId.str d) title).id) (toNumber (JsId.str d)) =
      true) := by
  have hk : ∀ L : List Todo, kept d L = L := by
    intro L
    simp [kept, strictNe, strictEq_nan_right _ _ hnan]
  have hb : Booted { app html value es with
      pending := (app html value es).pending.eraseIdx i } := booted_app html value es
  rw [step_removeTodo_ok _ i d hreq, removeTodoThen_booted _ hb]
  refine ⟨by simp [hk], by simp [hk], hk _, ?_⟩
  intro title
  simp [strictNe, strictEq_nan_right _ _ hnan]

/-- Witness for C10: the only item has the id "abc", its delete control is clicked and the
request succeeds; the item stays. -/
theorem remove_nan_id_keeps_every_item_witness :
    (app "" "" [Event.getTodosSettled 0 (Except.ok [⟨JsId.str "abc", "a"⟩]),
      Event.click "btn--delete" "abc"]).pending[0]? = some (Request.removeTodo "abc") ∧
    toNumber (JsId.str "abc") = JsNumber.nan ∧
    (step (app "" "" [Event.getTodosSettled 0 (Except.ok [⟨JsId.str "abc", "a"⟩]),
        Event.click "btn--delete" "abc"])
      (Event.removeTodoSettled 0 (Except.ok ()))).state.todos = [⟨JsId.str "abc", "a"⟩] :=
  ⟨rfl, by decide,
   (remove_nan_id_keeps_every_item "" ""
    [Event.getTodosSettled 0 (Except.ok [⟨JsId.str "abc", "a"⟩]),
      Event.click "btn--delete" "abc"] "abc" 0 rfl (by decide)).2.1⟩

/-- C7: `bootstrap` leaves the load in flight and the renderer subscribed, the container
still holding the markup of the page; whenever the load later succeeds with a list `L`,
exactly one call follows, the setter with `L`, and the container then shows the rendering of
`L`, one row per item in the order of `L`. For the items 1 "a" and 2 "b" these are two rows,
"a" then "b". -/
theorem initial_load_success_renders (html value : String) (es : List Event) (i : Nat)
    (L : List Todo) (hreq : (app html value es).pending[i]? = some Request.getTodos) :
    (bootstrap (World.initial html value)).pending = [Request.getTodos] ∧
    (bootstrap (World.initial html value)).state.onChange = some renderCallback ∧
    (bootstrap (World.initial html value)).browser =
      { todoListHtml := html, inputValue := value, calls := [Call.getTodos] } ∧
    (step (app html value es) (Event.getTodosSettled i (Except.ok L))).browser.calls =
      (app html value es).browser.calls ++ [Call.setTodos L] ∧
    (step (app html value es) (Event.getTodosSettled i (Except.ok L))).state.todos = L ∧
    (step (app html value es) (Event.getTodosSettled i (Except.ok L))).browser.todoListHtml =
      (updateTodoList L (app html value es).browser).todoListHtml ∧
    (step (app html value es) (Event.getTodosSettled i (Except.ok L))).browser.todoListHtml =
      (if L = [] then "no task to display" else String.join (L.map todoTemplate)) ∧
    (app html value [Event.getTodosSettled 0 (Except.ok
      [⟨JsId.num (JsNumber.fin false 1 0), "a"⟩,
        ⟨JsId.num (JsNumber.fin false 2 0), "b"⟩])]).browser.todoListHtml =
      "<li><span>a</span><button class=\"btn--delete\" id=\"1\">remove</button></li>" ++
      "<li><span>b</span><button class=\"btn--delete\" id=\"2\">remove</button></li>" := by
  have hb : Booted { app html value es with
      pending := (app html value es).pending.eraseIdx i } := booted_app html value es
  rw [step_getTodos_ok _ i L hreq, getTodosThen_booted _ hb, updateTodoList_html]
  refine ⟨rfl, rfl, rfl, rfl, rfl, rfl, rfl, ?_⟩
  have h0 : (bootstrap (World.initial html value)).pending[0]? = some Request.getTodos := rfl
  have hb0 : Booted { bootstrap (World.initial html value) with
      pending := (bootstrap (World.initial html value)).pending.eraseIdx 0 } :=
    booted_bootstrap html value
  simp only [app, run, List.foldl_cons, List.foldl_nil]
  rw [step_getTodos_ok _ 0 _ h0, getTodosThen_booted _ hb0]
  show markup [⟨JsId.num (JsNumber.fin false 1 0), "a"⟩,
    ⟨JsId.num (JsNumber.fin false 2 0), "b"⟩] = _
  decide!

/-- Witness for C7: the load is the first request in flight after `bootstrap`, and it
returns one item. -/
theorem initial_load_success_renders_witness :
    (app "" "" []).pending[0]? = some Request.getTodos ∧
    (step (app "" "" []) (Event.getTodosSettled 0
      (Except.ok [⟨JsId.str "1", "a"⟩]))).state.todos = [⟨JsId.str "1", "a"⟩] :=
  ⟨rfl, (initial_load_success_renders "" "" [] 0 [⟨JsId.str "1", "a"⟩] rfl).2.2.2.2.1⟩

/-- C6, the claim refuted: on a page whose list container starts empty, a failed initial
load leaves the list empty and the container empty too; the container does not show the
placeholder. -/
theorem initial_load_failure_shows_no_placeholder :
    (app "" "" [Event.getTodosSettled 0 (Except.error "TypeError: Failed to fetch")]
      ).browser.todoListHtml = "" ∧
    ¬ ((app "" "" [Event.getTodosSettled 0 (Except.error "TypeError: Failed to fetch")]
        ).browser.todoListHtml = "no task to display" ∧
      (app "" "" [Event.getTodosSettled 0 (Except.error "TypeError: Failed to fetch")]
        ).state.todos = []) := by
  decide

/-- C6 as amended: a failed initial load makes no call at all (no setter, no rendering, no
alert). Right after `bootstrap` the list is still empty and the container still holds the
markup of the page, whatever it was; in general the failure changes nothing but the set of
requests in flight, so the list and the container are as they were before it. -/
theorem initial_load_failure_changes_nothing (html value err : String) (es : List Event)
    (i : Nat) :
    (step (bootstrap (World.initial html value))
      (Event.getTodosSettled 0 (Except.error err))).state.todos = [] ∧
    (step (bootstrap (World.initial html value))
      (Event.getTodosSettled 0 (Except.error err))).browser =
      { todoListHtml := html, inputValue := value, calls := [Call.getTodos] } ∧
    (step (bootstrap (World.initial html value))
      (Event.getTodosSettled 0 (Except.error err))).pending = [] ∧
    ((app html value es).pending[i]? = some Request.getTodos →
      step (app html value es) (Event.getTodosSettled i (Except.error err)) =
        { app html value es with pending := (app html value es).pending.eraseIdx i }) := by
  refine ⟨rfl, rfl, rfl, ?_⟩
  intro hreq
  exact step_getTodos_error _ i err hreq

/-- Witness for C6 as amended: the load fails while a create request is in flight. -/
theorem initial_load_failure_changes_nothing_witness :
    (app "" "" [Event.input "milk", Event.submit]).pending[0]? = some Request.getTodos ∧
    (step (app "" "" [Event.input "milk", Event.submit])
      (Event.getTodosSettled 0 (Except.error "offline"))).pending = [Request.addTodo "milk"] :=
  ⟨by decide,
   congrArg World.pending ((initial_load_failure_changes_nothing "" "" "offline"
    [Event.input "milk", Event.submit] 0).2.2.2 (by decide))⟩

end AntraTodo
